import Mathlib

/-!
Shallow embedding of the OSTK core (junzis/ostk): the asynchronous
execution orchestrator (`src/commands.rs`, `src/state.rs`) and the
natural-language query agent (`src/agent.rs`).

Modelling conventions:
- `f64` values are modelled as `Rat`: the embedded code only moves these
  numbers around (no floating-point arithmetic is performed on them).
- Wall-clock timestamps (`chrono::Local::now()`) are lifted to explicit
  `String` parameters of the functions that read the clock.
- Each lock-held critical section of the orchestrator is one atomic step
  of an event-indexed transition function; the outcomes of external calls
  (Trino connection, engine query, remote cancel) are event parameters.
-/

namespace Ostk

/-- Rectangular geographic bounds (opensky crate), fields in the order
west, south, east, north. Coordinates are modelled as `Rat` (see above). -/
structure Bounds where
  west : Rat
  south : Rat
  east : Rat
  north : Rat
deriving DecidableEq

/-- `Bounds::new(west, south, east, north)`. -/
def Bounds.new (west south east north : Rat) : Bounds :=
  ⟨west, south, east, north⟩

/-- `QueryParams` (opensky crate): the fields read and written by the
embedded code. `limit` is a `u32`, modelled as `Nat`. -/
structure QueryParams where
  icao24 : Option String
  start : Option String
  stop : Option String
  callsign : Option String
  departure_airport : Option String
  arrival_airport : Option String
  airport : Option String
  limit : Option Nat
  bounds : Option Bounds
deriving DecidableEq

/-- `QueryParams::new()`: all fields empty. -/
def QueryParams.new : QueryParams :=
  ⟨none, none, none, none, none, none, none, none, none⟩

/-- `QueryType` from `src/agent.rs`; `Flights` carries the
`#[default]` attribute. -/
inductive QueryType where
  | Flights
  | Trajectory
  | Rawdata
deriving DecidableEq

/-- `ExecutionResult` from `src/state.rs`. -/
inductive ExecutionResult where
  | Success (success : Bool) (row_count : Nat) (columns : List String)
  | NoData (error : String) (row_count : Nat)
  | Error (error : String)
  | Cancelled (cancelled : Bool)
deriving DecidableEq

/-- `ExecutionState` from `src/state.rs`. -/
structure ExecutionState where
  is_executing : Bool
  status : String
  logs : List String
  query_id : Option String
  result : Option ExecutionResult
deriving DecidableEq

/-- `ExecutionState::default()`. -/
def ExecutionState.init : ExecutionState :=
  { is_executing := false
    status := ""
    logs := []
    query_id := none
    result := none }

/-- `ChatMessage` from `src/state.rs`. -/
structure ChatMessage where
  role : String
  content : String
  msg_type : String
deriving DecidableEq

/-- The engine result payload (opensky `FlightData`) at the boundary used
by the orchestrator: `data.len()` (row count) and `data.columns()`. -/
structure FlightData where
  rows : Nat
  columns : List String
deriving DecidableEq

/-- `AppState` from `src/state.rs`. The `query_type` field is the one
`src/commands.rs` reads and writes alongside the other fields. -/
structure AppState where
  query_params : QueryParams
  query_type : QueryType
  messages : List ChatMessage
  last_result : Option FlightData
  execution : ExecutionState
  agent_configured : Bool
  provider_name : String
  model_name : String
  error_message : Option String
deriving DecidableEq

/-- `AppState::default()` / `AppState::new()`. -/
def AppState.init : AppState :=
  { query_params := QueryParams.new
    query_type := .Flights
    messages := []
    last_result := none
    execution := ExecutionState.init
    agent_configured := false
    provider_name := ""
    model_name := ""
    error_message := none }

/-- The log line `format!("[{}] {}", timestamp, message)` produced by
`AppState::add_log`; the timestamp is an explicit parameter. -/
def logLine (ts message : String) : String :=
  "[" ++ ts ++ "] " ++ message

/-- `AppState::add_log`: push one timestamped line onto `execution.logs`. -/
def AppState.add_log (s : AppState) (ts message : String) : AppState :=
  { s with execution :=
    { s.execution with logs := s.execution.logs ++ [logLine ts message] } }

/-- `AppState::reset_execution`: replace the execution record wholesale. -/
def AppState.reset_execution (s : AppState) : AppState :=
  { s with execution :=
    { is_executing := true
      status := "Connecting to OpenSky..."
      logs := []
      query_id := none
      result := none } }

/-- JSON values, as far as the embedded code needs them. Numbers are
modelled as `Rat` (serde_json distinguishes integers from floats by
`den = 1`). -/
inductive Json where
  | null
  | bool (b : Bool)
  | num (q : Rat)
  | str (s : String)
  | arr (elems : List Json)
  | obj (fields : List (String × Json))

/-- `Value::as_str` mapped to an owned string. -/
def Json.asStr? : Json → Option String
  | .str s => some s
  | _ => none

/-- `Value::as_u64`: a non-negative integer number fitting `u64`. -/
def Json.asU64? : Json → Option Nat
  | .num q =>
    if q.den = 1 ∧ 0 ≤ q.num ∧ q.num < 18446744073709551616 then
      some q.num.toNat
    else none
  | _ => none

/-- `Value::as_f64` (modelled as `Rat`). -/
def Json.asF64? : Json → Option Rat
  | .num q => some q
  | _ => none

/-- `Value::is_null`. -/
def Json.isNull : Json → Bool
  | .null => true
  | _ => false

/-- `Value::as_array`. -/
def Json.asArray? : Json → Option (List Json)
  | .arr xs => some xs
  | _ => none

/-- `set_query_param` from `src/commands.rs`: write one query-parameter
field from a JSON value; unknown keys are rejected (`false`). The `u64`
to `u32` cast on `limit` truncates modulo `2 ^ 32`. -/
def set_query_param (key : String) (value : Json) (s : AppState) :
    AppState × Bool :=
  match key with
  | "icao24" =>
    ({ s with query_params :=
      { s.query_params with icao24 := value.asStr? } }, true)
  | "start" =>
    ({ s with query_params :=
      { s.query_params with start := value.asStr? } }, true)
  | "stop" =>
    ({ s with query_params :=
      { s.query_params with stop := value.asStr? } }, true)
  | "callsign" =>
    ({ s with query_params :=
      { s.query_params with callsign := value.asStr? } }, true)
  | "departure_airport" =>
    ({ s with query_params :=
      { s.query_params with departure_airport := value.asStr? } }, true)
  | "arrival_airport" =>
    ({ s with query_params :=
      { s.query_params with arrival_airport := value.asStr? } }, true)
  | "airport" =>
    ({ s with query_params :=
      { s.query_params with airport := value.asStr? } }, true)
  | "limit" =>
    ({ s with query_params :=
      { s.query_params with
        limit := value.asU64?.map (fun v => v % 4294967296) } }, true)
  | "bounds" =>
    if value.isNull then
      ({ s with query_params :=
        { s.query_params with bounds := none } }, true)
    else
      match value.asArray? with
      | some arr =>
        if harr : arr.length = 4 then
          ({ s with query_params :=
            { s.query_params with bounds := some (Bounds.new
              ((arr.get ⟨0, by omega⟩).asF64?.getD 0)
              ((arr.get ⟨1, by omega⟩).asF64?.getD 0)
              ((arr.get ⟨2, by omega⟩).asF64?.getD 0)
              ((arr.get ⟨3, by omega⟩).asF64?.getD 0)) } }, true)
        else (s, true)
      | none => (s, true)
  | _ => (s, false)

/-- The value returned by the `execute_query_async` command: either an
error payload `json({error: msg})` or the started acknowledgment. -/
inductive StartResult where
  | error (msg : String)
  | started
deriving DecidableEq

/-- Result of one `execute_query_async` call: the state after the call,
the returned value, and the data owned by the background task it spawned
(if any). -/
structure StartOutcome where
  state : AppState
  response : StartResult
  spawned : Option (QueryParams × QueryType)
deriving DecidableEq

/-- `execute_query_async` from `src/commands.rs`: reject when no start
time is set, then reject when already executing; otherwise reset the
execution state, log the start line, and spawn the background task with a
clone of the current params and query type. -/
def execute_query_async (ts : String) (s : AppState) : StartOutcome :=
  if s.query_params.start.isNone then
    ⟨s, .error "Start time is required", none⟩
  else if s.execution.is_executing then
    ⟨s, .error "A query is already running", none⟩
  else
    let s1 := s.reset_execution
    let s2 := s1.add_log ts "Starting query execution"
    ⟨s2, .started, some (s.query_params, s.query_type)⟩

/-- Progress report (opensky `QueryStatus`) carried by each progress
callback invocation: state label, percent complete, running row count,
optional remote query handle. The percentage is modelled as `Rat`. -/
structure QueryStatus where
  state : String
  progress : Rat
  row_count : Nat
  query_id : Option String
deriving DecidableEq

/-- Rendering of the progress percentage in the status line. The exact
`\x7b:.1\x7d` float formatting of the source is abstracted by `toString`;
no embedded property depends on the rendered digits. -/
def formatProgress (q : Rat) : String :=
  toString q

/-- Body of the task spawned by `make_progress_callback` in
`src/commands.rs`: update the status line; if the report carries a query
handle and none is recorded yet, record it and log two lines. -/
def progressStep (ts : String) (st : QueryStatus) (s : AppState) : AppState :=
  let s :=
    { s with execution :=
      { s.execution with status :=
        (st.state ++ " | " ++ formatProgress st.progress ++ "% | "
          ++ toString st.row_count ++ " rows") } }
  match st.query_id with
  | some qid =>
    if s.execution.query_id.isNone then
      let s :=
        { s with execution := { s.execution with query_id := some qid } }
      let s := s.add_log ts ("Query ID: " ++ qid)
      s.add_log ts
        ("Check progress at: https://trino.opensky-network.org/ui/query.html?"
          ++ qid)
    else s
  | none => s

/-- The first lock-held block of `execute_query_background`: log the
query-type line, then the SQL query line by line between rulers. The SQL
text is built by the opensky crate and enters the model as a parameter. -/
def bgLogSql (ts : String) (query_type : QueryType) (sqlLines : List String)
    (s : AppState) : AppState :=
  let type_str :=
    match query_type with
    | .Trajectory => "trajectory"
    | .Flights => "flight list"
    | .Rawdata => "raw data"
  let s := s.add_log ts ("Starting " ++ type_str ++ " query execution")
  let s := s.add_log ts "───── SQL Query ─────"
  let s := sqlLines.foldl (fun acc l => acc.add_log ts l) s
  s.add_log ts "─────────────────────"

/-- The connection phase of `execute_query_background`: on `Trino::new`
failure, write the Error terminal result and clear `is_executing`; on
success, log the connection and advance the status to executing. -/
def bgConnect (ts : String) (outcome : Except String Unit) (s : AppState) :
    AppState :=
  match outcome with
  | .error e =>
    let s := s.add_log ts ("Connection error: " ++ e)
    { s with execution :=
      { s.execution with
        status := "Error"
        result := some (.Error e)
        is_executing := false } }
  | .ok _ =>
    let s := s.add_log ts "Connected to OpenSky Trino"
    { s with execution := { s.execution with status := "Executing query..." } }

/-- The terminal lock-held section of `execute_query_background`
(`match result` at the end): map the engine call's outcome to the terminal
`ExecutionResult`, update status/logs/last_result, and clear
`is_executing` last. -/
def handle_result (ts : String) (r : Except String FlightData)
    (s : AppState) : AppState :=
  let s :=
    match r with
    | .ok data =>
      if data.rows = 0 then
        let s := s.add_log ts "No data found"
        { s with execution :=
          { s.execution with
            status := "No data found"
            result := some (.NoData "No data found" 0) } }
      else
        let s := s.add_log ts ("Retrieved " ++ toString data.rows ++ " rows")
        { s with
          execution :=
          { s.execution with
            status := "Complete"
            result := some (.Success true data.rows data.columns) }
          last_result := some data }
    | .error e =>
      let s := s.add_log ts ("Error: " ++ e)
      { s with execution :=
        { s.execution with
          status := "Error"
          result := some (.Error e) } }
  { s with execution := { s.execution with is_executing := false } }

/-- `cancel_query` from `src/commands.rs`. `remote` carries the outcomes
of the external calls it may make: the outer `Except` is `Trino::new`,
the inner one `trino.cancel`. Returns the state after the call and
whether the command reported success. -/
def cancel_query (ts : String) (remote : Except String (Except String Unit))
    (s : AppState) : AppState × Bool :=
  if !s.execution.is_executing then
    (s, false)
  else
    let s := s.add_log ts "Cancellation requested..."
    let s :=
      { s with execution := { s.execution with status := "Cancelling..." } }
    let s :=
      match s.execution.query_id with
      | some qid =>
        let s := s.add_log ts ("Cancelling Trino query " ++ qid ++ "...")
        match remote with
        | .ok (.ok _) => s.add_log ts "Trino query cancelled"
        | .ok (.error e) => s.add_log ts ("Cancel error: " ++ e)
        | .error e => s.add_log ts ("Connection error: " ++ e)
      | none => s
    let s :=
      { s with execution :=
        { s.execution with
          status := "Cancelled"
          result := some (.Cancelled true)
          is_executing := false } }
    (s, true)

/-- One atomic lock-held critical section of the orchestrator, as an
event. Parameters carry the timestamps read from the clock and the
outcomes of external calls. -/
inductive Event where
  | setParam (key : String) (value : Json)
  | start (ts : String)
  | logSql (ts : String) (query_type : QueryType) (sqlLines : List String)
  | connect (ts : String) (outcome : Except String Unit)
  | progress (ts : String) (st : QueryStatus)
  | finish (ts : String) (r : Except String FlightData)
  | cancel (ts : String) (remote : Except String (Except String Unit))

/-- Apply one event to the shared state. Rejected commands leave the
state unchanged, exactly as their early returns do. -/
def step (s : AppState) (e : Event) : AppState :=
  match e with
  | .setParam k v => (set_query_param k v s).1
  | .start ts => (execute_query_async ts s).state
  | .logSql ts qt sql => bgLogSql ts qt sql s
  | .connect ts outcome => bgConnect ts outcome s
  | .progress ts st => progressStep ts st s
  | .finish ts r => handle_result ts r s
  | .cancel ts remote => (cancel_query ts remote s).1

/-- Run a sequence of events from a state. -/
def run (s : AppState) (es : List Event) : AppState :=
  es.foldl step s

/-- `LlmError` from `src/llm/mod.rs`; the `reqwest::Error` payload of the
`Http` variant is modelled by its message string. -/
inductive LlmError where
  | Http (msg : String)
  | Api (msg : String)
  | NotConfigured (msg : String)
  | Parse (msg : String)
deriving DecidableEq

/-- `ParsedQuery` from `src/agent.rs`. -/
structure ParsedQuery where
  query_type : QueryType
  hint : String
  params : QueryParams
deriving DecidableEq

/-- `ParsedParams` from `src/agent.rs`: the loosely-typed intermediate
structure the extracted JSON is deserialized into. Every field except
`status` carries `#[serde(default)]`. `f64` is modelled as `Rat`, `u32`
as `Nat`, `i64` as `Int`. -/
structure ParsedParams where
  status : String
  reason : Option String
  query_type : Option QueryType
  hint : Option String
  icao24 : Option String
  start : Option String
  stop : Option String
  callsign : Option String
  departure_airport : Option String
  arrival_airport : Option String
  airport : Option String
  limit : Option Nat
  bounds : Option (List Rat)
  time_buffer : Option Int
deriving DecidableEq

/-- The part of `Agent::extract_params` that runs after the intermediate
structure has been deserialized (the `unclear` check, the defaults for
query type and hint, the field moves into `QueryParams`, and the bounds
conversion). -/
def extract_params_from (parsed : ParsedParams) :
    Except LlmError ParsedQuery :=
  if parsed.status = "unclear" then
    .error (.Parse
      ("Query unclear: " ++ parsed.reason.getD "Query not clear"))
  else
    let query_type := parsed.query_type.getD QueryType.Flights
    let hint := parsed.hint.getD
      (match query_type with
       | .Trajectory => "Download trajectory data"
       | .Flights => "Download flight list"
       | .Rawdata => "Download raw ADS-B messages")
    let params : QueryParams :=
      { QueryParams.new with
        start := parsed.start
        stop := parsed.stop
        icao24 := parsed.icao24
        callsign := parsed.callsign
        departure_airport := parsed.departure_airport
        arrival_airport := parsed.arrival_airport
        airport := parsed.airport
        limit := parsed.limit }
    let params :=
      match parsed.bounds with
      | some b =>
        if hb : b.length = 4 then
          { params with bounds := some (Bounds.new
              (b.get ⟨0, by omega⟩) (b.get ⟨1, by omega⟩)
              (b.get ⟨2, by omega⟩) (b.get ⟨3, by omega⟩)) }
        else params
      | none => params
    .ok { query_type := query_type, hint := hint, params := params }

/-- Look a key up among the fields of a JSON object. -/
def getField (fields : List (String × Json)) (k : String) : Option Json :=
  (fields.find? (fun kv => kv.1 == k)).map (fun kv => kv.2)

/-- Deserialize a JSON value as a `String` field. -/
def asStr : Json → Except String String
  | .str s => .ok s
  | _ => .error "invalid type: expected a string"

/-- Deserialize a JSON value as a `u32` field: an integer in range. -/
def asU32 : Json → Except String Nat
  | .num q =>
    if q.den = 1 ∧ 0 ≤ q.num ∧ q.num < 4294967296 then .ok q.num.toNat
    else .error "invalid value: not a u32"
  | _ => .error "invalid type: expected a u32"

/-- Deserialize a JSON value as an `i64` field: an integer in range. -/
def asI64 : Json → Except String Int
  | .num q =>
    if q.den = 1 ∧ -9223372036854775808 ≤ q.num ∧ q.num ≤ 9223372036854775807
    then .ok q.num
    else .error "invalid value: not an i64"
  | _ => .error "invalid type: expected an i64"

/-- Deserialize a JSON value as an `f64` field (modelled as `Rat`). -/
def asF64 : Json → Except String Rat
  | .num q => .ok q
  | _ => .error "invalid type: expected an f64"

/-- Deserialize a JSON value as a `Vec<f64>` field. -/
def asF64Array : Json → Except String (List Rat)
  | .arr xs => xs.mapM asF64
  | _ => .error "invalid type: expected an array"

/-- Deserialize a JSON value as the `QueryType` enum
(`#[serde(rename_all = \x22lowercase\x22)]`). -/
def asQueryType : Json → Except String QueryType
  | .str "flights" => .ok .Flights
  | .str "trajectory" => .ok .Trajectory
  | .str "rawdata" => .ok .Rawdata
  | _ => .error "unknown variant for QueryType"

/-- A required (non-default) string field: missing is an error. -/
def reqStr (fields : List (String × Json)) (k : String) :
    Except String String :=
  match getField fields k with
  | none => .error ("missing field `" ++ k ++ "`")
  | some v => asStr v

/-- An `Option` field carrying `#[serde(default)]`: missing or `null`
yields `none`; a present value must deserialize. -/
def optField (fields : List (String × Json)) (k : String)
    (p : Json → Except String α) : Except String (Option α) :=
  match getField fields k with
  | none => .ok none
  | some .null => .ok none
  | some v => (p v).map some

/-- The derived serde deserializer for `ParsedParams` applied to a JSON
object: `status` is required, every other field defaults when missing or
null, and fields with unknown keys are ignored. -/
def deserializeParsedParams (fields : List (String × Json)) :
    Except String ParsedParams := do
  let status ← reqStr fields "status"
  let reason ← optField fields "reason" asStr
  let query_type ← optField fields "query_type" asQueryType
  let hint ← optField fields "hint" asStr
  let icao24 ← optField fields "icao24" asStr
  let start ← optField fields "start" asStr
  let stop ← optField fields "stop" asStr
  let callsign ← optField fields "callsign" asStr
  let departure_airport ← optField fields "departure_airport" asStr
  let arrival_airport ← optField fields "arrival_airport" asStr
  let airport ← optField fields "airport" asStr
  let limit ← optField fields "limit" asU32
  let bounds ← optField fields "bounds" asF64Array
  let time_buffer ← optField fields "time_buffer" asI64
  .ok { status := status, reason := reason, query_type := query_type
        hint := hint, icao24 := icao24, start := start, stop := stop
        callsign := callsign, departure_airport := departure_airport
        arrival_airport := arrival_airport, airport := airport
        limit := limit, bounds := bounds, time_buffer := time_buffer }

/-- The keys of the declared fields of `ParsedParams`; every other key in
a JSON object is unknown to the deserializer. -/
def parsedParamsKeys : List String :=
  ["status", "reason", "query_type", "hint", "icao24", "start", "stop",
   "callsign", "departure_airport", "arrival_airport", "airport", "limit",
   "bounds", "time_buffer"]

/-- The string `s` contains `sub` as a substring. -/
def strContains (s sub : String) : Prop :=
  ∃ a b, s = a ++ sub ++ b

/-- Summary of the terminal mapping applied by `handle_result`: the
`ExecutionResult` it writes for a given engine outcome. -/
def terminalOf (r : Except String FlightData) : ExecutionResult :=
  match r with
  | .ok data =>
    if data.rows = 0 then .NoData "No data found" 0
    else .Success true data.rows data.columns
  | .error e => .Error e

/-! Concrete states and traces used to instantiate the theorems. -/

/-- Query parameters with a start time set. -/
def exampleParams : QueryParams :=
  { QueryParams.new with start := some "2024-01-01 00:00:00" }

/-- An idle state whose parameters carry a start time. -/
def idleReadyState : AppState :=
  { AppState.init with query_params := exampleParams }

/-- A state in the middle of a run: executing, no recorded handle. -/
def busyState : AppState :=
  { AppState.init with
    query_params := exampleParams
    execution :=
      { ExecutionState.init with
        is_executing := true
        status := "Executing query..." } }

/-- A state in the middle of a run with a recorded query handle. -/
def busyStateWithId : AppState :=
  { busyState with
    execution := { busyState.execution with query_id := some "q_1" } }

/-- An engine payload with no rows. -/
def emptyFlights : FlightData :=
  ⟨0, ["icao24", "callsign"]⟩

/-- An engine payload with three rows. -/
def someFlights : FlightData :=
  ⟨3, ["icao24", "callsign"]⟩

/-- A complete successful run from the initial state. -/
def plainRunTrace : List Event :=
  [.setParam "start" (Json.str "2024-01-01 00:00:00"),
   .start "08:00:00",
   .logSql "08:00:00" .Flights ["SELECT icao24 FROM flights"],
   .connect "08:00:01" (.ok ()),
   .finish "08:00:05" (.ok emptyFlights)]

/-- A run taken up to the point where cancel is about to be called: the
query is executing and a handle has been reported. -/
def cancelRunStart : List Event :=
  [.setParam "start" (Json.str "2024-01-01 00:00:00"),
   .start "08:00:00",
   .logSql "08:00:00" .Flights ["SELECT icao24 FROM flights"],
   .connect "08:00:01" (.ok ()),
   .progress "08:00:02" ⟨"RUNNING", 50, 10, some "q_1"⟩]

/-- The same run continued: cancel succeeds remotely, then the background
unit's engine call returns with data and its terminal section runs. -/
def cancelRunFull : List Event :=
  cancelRunStart ++
    [.cancel "08:00:03" (.ok (.ok ())),
     .finish "08:00:04" (.ok someFlights)]

/-- A state with no start time whose orchestrator is nevertheless
executing (exercises the priority of the start-time check). -/
def noStartBusyState : AppState :=
  { AppState.init with
    execution := { ExecutionState.init with is_executing := true } }

/-- A parsed LLM response with a four-element bounds array. -/
def parsedWithBounds : ParsedParams :=
  { status := "ok"
    reason := none
    query_type := some .Flights
    hint := none
    icao24 := none
    start := some "2024-01-01 00:00:00"
    stop := none
    callsign := none
    departure_airport := none
    arrival_airport := none
    airport := none
    limit := none
    bounds := some [-5, 40, 10, 55]
    time_buffer := none }

/-- The same response with a three-element bounds array. -/
def parsedWithShortBounds : ParsedParams :=
  { parsedWithBounds with bounds := some [1, 2, 3] }

/-- A parsed LLM response classified unclear, with a stated reason. -/
def unclearParsed : ParsedParams :=
  { status := "unclear"
    reason := some "ambiguous airport"
    query_type := none
    hint := none
    icao24 := none
    start := none
    stop := none
    callsign := none
    departure_airport := none
    arrival_airport := none
    airport := none
    limit := none
    bounds := none
    time_buffer := none }

/-! Helper lemmas about the effect of each critical section on the
execution record. -/

@[simp] theorem add_log_is_executing (s : AppState) (ts m : String) :
    (s.add_log ts m).execution.is_executing = s.execution.is_executing :=
  rfl

@[simp] theorem add_log_result (s : AppState) (ts m : String) :
    (s.add_log ts m).execution.result = s.execution.result :=
  rfl

@[simp] theorem add_log_query_id (s : AppState) (ts m : String) :
    (s.add_log ts m).execution.query_id = s.execution.query_id :=
  rfl

@[simp] theorem add_log_status (s : AppState) (ts m : String) :
    (s.add_log ts m).execution.status = s.execution.status :=
  rfl

@[simp] theorem add_log_last_result (s : AppState) (ts m : String) :
    (s.add_log ts m).last_result = s.last_result :=
  rfl

@[simp] theorem add_log_logs (s : AppState) (ts m : String) :
    (s.add_log ts m).execution.logs = s.execution.logs ++ [logLine ts m] :=
  rfl

theorem foldl_add_log_is_executing (ts : String) (ls : List String)
    (s : AppState) :
    (ls.foldl (fun acc l => acc.add_log ts l) s).execution.is_executing =
      s.execution.is_executing := by
  induction ls generalizing s with
  | nil => rfl
  | cons a ls ih =>
    rw [List.foldl_cons, ih]
    simp

theorem foldl_add_log_result (ts : String) (ls : List String)
    (s : AppState) :
    (ls.foldl (fun acc l => acc.add_log ts l) s).execution.result =
      s.execution.result := by
  induction ls generalizing s with
  | nil => rfl
  | cons a ls ih =>
    rw [List.foldl_cons, ih]
    simp

theorem set_query_param_execution (k : String) (v : Json) (s : AppState) :
    (set_query_param k v s).1.execution = s.execution := by
  unfold set_query_param
  repeat' split <;> try rfl

theorem progressStep_result (ts : String) (st : QueryStatus)
    (s : AppState) :
    (progressStep ts st s).execution.result = s.execution.result := by
  unfold progressStep
  cases st.query_id
  · simp
  · simp only []
    split <;> simp

theorem progressStep_is_executing (ts : String) (st : QueryStatus)
    (s : AppState) :
    (progressStep ts st s).execution.is_executing =
      s.execution.is_executing := by
  unfold progressStep
  cases st.query_id
  · simp
  · simp only []
    split <;> simp

theorem handle_result_is_executing (ts : String)
    (r : Except String FlightData) (s : AppState) :
    (handle_result ts r s).execution.is_executing = false := by
  cases r with
  | ok data =>
    by_cases hd : data.rows = 0 <;> simp [handle_result, hd]
  | error e => simp [handle_result]

theorem handle_result_result (ts : String) (r : Except String FlightData)
    (s : AppState) :
    (handle_result ts r s).execution.result = some (terminalOf r) := by
  cases r with
  | ok data =>
    by_cases hd : data.rows = 0 <;> simp [handle_result, terminalOf, hd]
  | error e => simp [handle_result, terminalOf]

theorem cancel_query_sets_cancelled (ts : String)
    (remote : Except String (Except String Unit)) (s : AppState)
    (h : s.execution.is_executing = true) :
    (cancel_query ts remote s).1.execution.result =
        some (.Cancelled true) ∧
      (cancel_query ts remote s).1.execution.is_executing = false ∧
      (cancel_query ts remote s).1.execution.status = "Cancelled" := by
  simp [cancel_query, h]

theorem bgConnect_preserves (ts : String) (s : AppState) :
    (bgConnect ts (.ok ()) s).execution.result = s.execution.result ∧
      (bgConnect ts (.ok ()) s).execution.is_executing =
        s.execution.is_executing := by
  simp [bgConnect]

/-- The poller-visible invariant relating the terminal result and the
executing flag: a written result is only ever seen with the flag down. -/
def ResultInv (s : AppState) : Prop :=
  ∀ r, s.execution.result = some r → s.execution.is_executing = false

theorem resultInv_init : ResultInv AppState.init := by
  intro r hr
  simp [AppState.init, ExecutionState.init] at hr

theorem step_preserves_resultInv (s : AppState) (e : Event)
    (h : ResultInv s) : ResultInv (step s e) := by
  cases e with
  | setParam k v =>
    intro r hr
    rw [step, set_query_param_execution] at hr ⊢
    exact h r hr
  | start ts =>
    intro r hr
    rw [step] at hr ⊢
    by_cases h1 : s.query_params.start.isNone
    · simp only [execute_query_async, h1, if_true] at hr ⊢
      exact h r hr
    · by_cases h2 : s.execution.is_executing
      · simp only [execute_query_async, h1, h2, if_false, if_true] at hr ⊢
        exact h r hr
      · simp [execute_query_async, h1, h2, AppState.reset_execution] at hr
  | logSql ts qt sql =>
    intro r hr
    rw [step] at hr ⊢
    simp only [bgLogSql, add_log_result, add_log_is_executing,
      foldl_add_log_result, foldl_add_log_is_executing] at hr ⊢
    exact h r hr
  | connect ts outcome =>
    intro r hr
    rw [step] at hr ⊢
    cases outcome with
    | ok u => simp only [bgConnect, add_log_result, add_log_is_executing] at hr ⊢; exact h r hr
    | error e => simp [bgConnect]
  | progress ts st =>
    intro r hr
    rw [step, progressStep_result] at hr
    rw [step, progressStep_is_executing]
    exact h r hr
  | finish ts r0 =>
    intro r hr
    rw [step, handle_result_is_executing]
  | cancel ts remote =>
    intro r hr
    rw [step] at hr ⊢
    by_cases hx : s.execution.is_executing
    · exact (cancel_query_sets_cancelled ts remote s hx).2.1
    · simp only [cancel_query, hx, Bool.not_false, if_true] at hr ⊢

theorem resultInv_run (s : AppState) (es : List Event)
    (h : ResultInv s) : ResultInv (run s es) := by
  induction es generalizing s with
  | nil => exact h
  | cons e es ih =>
    rw [run, List.foldl_cons]
    exact ih (step s e) (step_preserves_resultInv s e h)

/-! Claims. -/

/-- C1: for every run of the orchestrator (every event sequence from the
initial state, each event being one lock-held critical section), whenever
a terminal result has been written, `execution.result` is `Some` and
`is_executing` is false; a terminal result is never observable while
`is_executing` is true, because every terminal path clears the flag in
the same critical section that writes the result. -/
theorem c1_terminal_result_never_while_executing (es : List Event)
    (r : ExecutionResult)
    (h : (run AppState.init es).execution.result = some r) :
    (run AppState.init es).execution.is_executing = false ∧
      (run AppState.init es).execution.result.isSome = true :=
  ⟨resultInv_run AppState.init es resultInv_init r h, by simp [h]⟩

/-- Witness for C1: a concrete run reaching the `NoData` terminal state. -/
theorem c1_terminal_result_never_while_executing_witness :
    (run AppState.init plainRunTrace).execution.result =
        some (.NoData "No data found" 0) ∧
      (run AppState.init plainRunTrace).execution.is_executing = false := by
  have h : (run AppState.init plainRunTrace).execution.result =
      some (.NoData "No data found" 0) := by decide
  exact ⟨h,
    (c1_terminal_result_never_while_executing plainRunTrace _ h).1⟩

/-- C2 counterexample: a run on which `cancel` is invoked while
`is_executing` is true (and the remote cancel even succeeds), after which
the still-running background unit finishes with three rows of data. The
final terminal result observed after both have finished is `Success`,
not `Cancelled`: the background unit's terminal section overwrites the
`Cancelled` result the cancel handler wrote. -/
theorem c2_cancelled_overwritten_counterexample :
    (run AppState.init cancelRunStart).execution.is_executing = true ∧
      (run AppState.init cancelRunFull).execution.result =
        some (.Success true 3 ["icao24", "callsign"]) ∧
      (run AppState.init cancelRunFull).execution.result ≠
        some (.Cancelled true) :=
  ⟨by decide, by decide, by decide⟩

/-- C2 amended: when `cancel` is invoked while `is_executing` is true,
the cancel handler immediately writes the `Cancelled` terminal result and
clears `is_executing` (regardless of the remote cancel's outcome); but if
the still-running background unit's engine call later returns `r`, its
terminal section overwrites the result with the mapping of `r`, so the
final result observed after both have finished is `terminalOf r`, not
necessarily `Cancelled`. -/
theorem c2_cancel_sets_cancelled_until_background_finishes
    (ts1 ts2 : String) (remote : Except String (Except String Unit))
    (r : Except String FlightData) (s : AppState)
    (h : s.execution.is_executing = true) :
    (cancel_query ts1 remote s).1.execution.result =
        some (.Cancelled true) ∧
      (cancel_query ts1 remote s).1.execution.is_executing = false ∧
      (handle_result ts2 r (cancel_query ts1 remote s).1).execution.result
        = some (terminalOf r) :=
  ⟨(cancel_query_sets_cancelled ts1 remote s h).1,
   (cancel_query_sets_cancelled ts1 remote s h).2.1,
   handle_result_result ts2 r _⟩

/-- Witness for the amended C2 at a concrete executing state. -/
theorem c2_cancel_sets_cancelled_until_background_finishes_witness :
    (cancel_query "09:00:00" (.ok (.ok ()))
        busyStateWithId).1.execution.result = some (.Cancelled true) ∧
      (handle_result "09:00:01" (.ok someFlights)
          (cancel_query "09:00:00" (.ok (.ok ()))
            busyStateWithId).1).execution.result =
        some (.Success true 3 ["icao24", "callsign"]) := by
  obtain ⟨h1, h2, h3⟩ :=
    c2_cancel_sets_cancelled_until_background_finishes "09:00:00"
      "09:00:01" (.ok (.ok ())) (.ok someFlights) busyStateWithId
      (by decide)
  refine ⟨h1, ?_⟩
  rw [h3]
  decide

/-- C3: a `start` call made while a run is executing (and a start time is
set) is rejected with the already-running error; the returned state is
the input state unchanged (all shared fields included) and no background
task is spawned. -/
theorem c3_start_rejected_while_executing (ts : String) (s : AppState)
    (hstart : s.query_params.start.isSome = true)
    (hexec : s.execution.is_executing = true) :
    execute_query_async ts s =
      ⟨s, .error "A query is already running", none⟩ := by
  obtain ⟨v, hv⟩ := Option.isSome_iff_exists.mp hstart
  simp [execute_query_async, hv, hexec]

/-- Witness for C3 at a concrete executing state. -/
theorem c3_start_rejected_while_executing_witness :
    execute_query_async "10:00:00" busyState =
      ⟨busyState, .error "A query is already running", none⟩ :=
  c3_start_rejected_while_executing "10:00:00" busyState (by decide)
    (by decide)

/-- C10: a `start` call made while `query_params.start` is `None` is
rejected with the start-time error, before the `is_executing` check is
ever consulted; the state is unchanged and no background task is
spawned, whether or not the orchestrator is idle. -/
theorem c10_start_rejected_without_start_time (ts : String) (s : AppState)
    (h : s.query_params.start = none) :
    execute_query_async ts s =
      ⟨s, .error "Start time is required", none⟩ := by
  simp [execute_query_async, h]

/-- Witness for C10 at a state with no start time that is already
executing: the start-time error takes priority over the busy error. -/
theorem c10_start_rejected_without_start_time_witness :
    execute_query_async "10:00:00" noStartBusyState =
        ⟨noStartBusyState, .error "Start time is required", none⟩ ∧
      execute_query_async "10:00:00" AppState.init =
        ⟨AppState.init, .error "Start time is required", none⟩ :=
  ⟨c10_start_rejected_without_start_time "10:00:00" noStartBusyState rfl,
   c10_start_rejected_without_start_time "10:00:00" AppState.init rfl⟩

/-- C8 counterexample: on an accepted start, the status the execution
record is reset to is "Connecting to OpenSky...", not the exact string
"Connecting..." the claim states. -/
theorem c8_status_string_counterexample :
    (execute_query_async "08:00:00" idleReadyState).state.execution.status
        = "Connecting to OpenSky..." ∧
      (execute_query_async "08:00:00"
          idleReadyState).state.execution.status ≠ "Connecting..." :=
  ⟨by decide, by decide⟩

/-- C8 amended: when `start` accepts a request, it resets the execution
record to exactly is_executing true, status "Connecting to OpenSky...",
empty logs, no query id and no result, then records the start log line,
spawns one background task owning a clone of the current params and
query type, and returns the started acknowledgment. -/
theorem c8_start_resets_and_spawns (ts : String) (s : AppState)
    (hstart : s.query_params.start.isSome = true)
    (hexec : s.execution.is_executing = false) :
    execute_query_async ts s =
      ⟨{ s with execution :=
          { is_executing := true
            status := "Connecting to OpenSky..."
            logs := [logLine ts "Starting query execution"]
            query_id := none
            result := none } },
        .started, some (s.query_params, s.query_type)⟩ := by
  obtain ⟨v, hv⟩ := Option.isSome_iff_exists.mp hstart
  simp [execute_query_async, hv, hexec, AppState.reset_execution,
    AppState.add_log, logLine]

/-- Witness for the amended C8 at a concrete idle state. -/
theorem c8_start_resets_and_spawns_witness :
    execute_query_async "08:00:00" idleReadyState =
      ⟨{ idleReadyState with execution :=
          { is_executing := true
            status := "Connecting to OpenSky..."
            logs := [logLine "08:00:00" "Starting query execution"]
            query_id := none
            result := none } },
        .started,
        some (idleReadyState.query_params, idleReadyState.query_type)⟩ :=
  c8_start_resets_and_spawns "08:00:00" idleReadyState (by decide)
    (by decide)

/-- C4: the background unit's terminal section maps an engine success
with zero rows to `NoData` with row_count 0 and the status string
"No data found", and a success with at least one row to `Success`
carrying exactly the engine's row count and column list, also updating
`last_result` to the returned payload. -/
theorem c4_engine_success_terminal_mapping (ts : String) (s : AppState)
    (data : FlightData) :
    (data.rows = 0 →
      (handle_result ts (.ok data) s).execution.result =
          some (.NoData "No data found" 0) ∧
        (handle_result ts (.ok data) s).execution.status =
          "No data found") ∧
    (data.rows ≠ 0 →
      (handle_result ts (.ok data) s).execution.result =
          some (.Success true data.rows data.columns) ∧
        (handle_result ts (.ok data) s).execution.status = "Complete" ∧
        (handle_result ts (.ok data) s).last_result = some data) := by
  constructor
  · intro h
    simp [handle_result, h]
  · intro h
    simp [handle_result, h]

/-- Witness for C4 at concrete zero-row and three-row payloads. -/
theorem c4_engine_success_terminal_mapping_witness :
    ((handle_result "08:00:05" (.ok emptyFlights)
        busyState).execution.result = some (.NoData "No data found" 0)) ∧
      ((handle_result "08:00:05" (.ok someFlights)
          busyState).execution.result =
        some (.Success true someFlights.rows someFlights.columns)) ∧
      ((handle_result "08:00:05" (.ok someFlights)
          busyState).last_result = some someFlights) := by
  obtain ⟨ha, -⟩ :=
    (c4_engine_success_terminal_mapping "08:00:05" busyState
      emptyFlights).1 (by decide)
  obtain ⟨hb, -, hc⟩ :=
    (c4_engine_success_terminal_mapping "08:00:05" busyState
      someFlights).2 (by decide)
  exact ⟨ha, hb, hc⟩

/-- C9: within one run the remote query handle is recorded at most once:
a progress-callback invocation carrying a handle records it and emits the
two handle log lines when none is recorded yet; any invocation carrying a
handle while one is already recorded leaves `query_id` and the logs
unchanged. -/
theorem c9_handle_recorded_at_most_once (ts : String) (st : QueryStatus)
    (s : AppState) :
    (∀ qid, s.execution.query_id = none → st.query_id = some qid →
      (progressStep ts st s).execution.query_id = some qid ∧
        (progressStep ts st s).execution.logs = s.execution.logs ++
          [logLine ts ("Query ID: " ++ qid),
           logLine ts
             ("Check progress at: https://trino.opensky-network.org/ui/query.html?"
               ++ qid)]) ∧
    (∀ qid q0, s.execution.query_id = some q0 → st.query_id = some qid →
      (progressStep ts st s).execution.query_id = some q0 ∧
        (progressStep ts st s).execution.logs = s.execution.logs) := by
  constructor
  · intro qid h1 h2
    simp [progressStep, h1, h2]
  · intro qid q0 h1 h2
    simp [progressStep, h1, h2]

/-- Witness for C9: the first handle report is recorded, a second report
carrying a different handle changes neither the handle nor the logs. -/
theorem c9_handle_recorded_at_most_once_witness :
    ((progressStep "08:00:02" ⟨"RUNNING", 50, 10, some "q_1"⟩
        busyState).execution.query_id = some "q_1") ∧
      ((progressStep "08:00:03" ⟨"RUNNING", 80, 20, some "q_2"⟩
          busyStateWithId).execution.query_id = some "q_1") ∧
      ((progressStep "08:00:03" ⟨"RUNNING", 80, 20, some "q_2"⟩
          busyStateWithId).execution.logs =
        busyStateWithId.execution.logs) := by
  obtain ⟨h1, -⟩ :=
    (c9_handle_recorded_at_most_once "08:00:02"
      ⟨"RUNNING", 50, 10, some "q_1"⟩ busyState).1 "q_1" (by decide) rfl
  obtain ⟨h2, h3⟩ :=
    (c9_handle_recorded_at_most_once "08:00:03"
      ⟨"RUNNING", 80, 20, some "q_2"⟩ busyStateWithId).2 "q_2" "q_1"
      (by decide) rfl
  exact ⟨h1, h2, h3⟩

/-- C5: when extraction proceeds (status not "unclear"), a bounds field
that is the four-element array [a, b, c, d] is converted to
`Bounds.new a b c d`, preserving the four numbers exactly in the order
west, south, east, north; a bounds array of any other length leaves
`params.bounds` unset. -/
theorem c5_bounds_conversion (p : ParsedParams)
    (hs : p.status ≠ "unclear") :
    (∀ a b c d, p.bounds = some [a, b, c, d] →
      ∃ q, extract_params_from p = .ok q ∧
        q.params.bounds = some (Bounds.new a b c d)) ∧
    (∀ l, p.bounds = some l → l.length ≠ 4 →
      ∃ q, extract_params_from p = .ok q ∧ q.params.bounds = none) := by
  constructor
  · intro a b c d hb
    unfold extract_params_from
    rw [if_neg hs, hb]
    exact ⟨_, rfl, rfl⟩
  · intro l hb hl
    unfold extract_params_from
    rw [if_neg hs, hb]
    refine ⟨_, rfl, ?_⟩
    simp [hl, QueryParams.new]

/-- Witness for C5 at a four-element and a three-element bounds array. -/
theorem c5_bounds_conversion_witness :
    (∃ q, extract_params_from parsedWithBounds = .ok q ∧
      q.params.bounds = some (Bounds.new (-5) 40 10 55)) ∧
    (∃ q, extract_params_from parsedWithShortBounds = .ok q ∧
      q.params.bounds = none) :=
  ⟨(c5_bounds_conversion parsedWithBounds (by decide)).1 (-5) 40 10 55
      rfl,
   (c5_bounds_conversion parsedWithShortBounds (by decide)).2 [1, 2, 3]
      rfl (by decide)⟩

/-- C6: when the extracted object's status is "unclear", extraction
fails with a Parse error whose message contains the stated reason, and
contains "Query not clear" when no reason is present; no ParsedQuery is
produced. -/
theorem c6_unclear_parse_error (p : ParsedParams)
    (h : p.status = "unclear") :
    ∃ msg, extract_params_from p = .error (.Parse msg) ∧
      (∀ r, p.reason = some r → strContains msg r) ∧
      (p.reason = none → strContains msg "Query not clear") := by
  refine ⟨"Query unclear: " ++ p.reason.getD "Query not clear",
    ?_, ?_, ?_⟩
  · simp [extract_params_from, h]
  · intro r hr
    exact ⟨"Query unclear: ", "", by simp [hr]⟩
  · intro hr
    exact ⟨"Query unclear: ", "", by simp [hr]⟩

/-- Witness for C6 at the unclear response with a stated reason. -/
theorem c6_unclear_parse_error_witness :
    ∃ msg, extract_params_from unclearParsed = .error (.Parse msg) ∧
      strContains msg "ambiguous airport" := by
  obtain ⟨msg, h1, h2, -⟩ := c6_unclear_parse_error unclearParsed rfl
  exact ⟨msg, h1, h2 "ambiguous airport" rfl⟩

/-- Key-lookup on a JSON object hits the first field with that key. -/
theorem getField_cons_self (k : String) (v : Json)
    (fields : List (String × Json)) :
    getField ((k, v) :: fields) k = some v := by
  simp [getField]

/-- Key-lookup skips a field with a different key. -/
theorem getField_cons_ne (k0 : String) (v0 : Json)
    (fields : List (String × Json)) (k : String) (h : k0 ≠ k) :
    getField ((k0, v0) :: fields) k = getField fields k := by
  simp [getField, List.find?_cons_of_neg, h]

/-- Key-lookup misses when no field carries the key. -/
theorem getField_eq_none (fields : List (String × Json)) (k : String)
    (h : ∀ kv ∈ fields, kv.1 ≠ k) : getField fields k = none := by
  have hf : fields.find? (fun kv => kv.1 == k) = none :=
    List.find?_eq_none.mpr (by intro x hx; simpa using h x hx)
  simp [getField, hf]

/-- C7 counterexample: a syntactically valid JSON object carrying only a
well-typed known field but no `status` makes deserialization of the
intermediate structure fail — `status` has no serde default. -/
theorem c7_missing_status_counterexample :
    deserializeParsedParams [("query_type", Json.str "flights")] =
      .error "missing field `status`" :=
  rfl

/-- C7 amended: deserialization never fails on account of a missing or
unknown field except for `status`, which is required: given any object
binding `status` to a string, with every other declared field missing
and arbitrarily many unknown fields, deserialization succeeds and every
other field takes its default. -/
theorem c7_defaults_amended (s : String) (extra : List (String × Json))
    (h : ∀ kv ∈ extra, kv.1 ∉ parsedParamsKeys) :
    deserializeParsedParams (("status", Json.str s) :: extra) =
      .ok { status := s, reason := none, query_type := none, hint := none,
            icao24 := none, start := none, stop := none, callsign := none,
            departure_airport := none, arrival_airport := none,
            airport := none, limit := none, bounds := none,
            time_buffer := none } := by
  have hnone : ∀ k, k ∈ parsedParamsKeys → k ≠ "status" →
      getField (("status", Json.str s) :: extra) k = none := by
    intro k hk hne
    rw [getField_cons_ne _ _ _ _ (fun he => hne he.symm)]
    exact getField_eq_none extra k (fun kv hkv he => h kv hkv (he ▸ hk))
  simp only [deserializeParsedParams, reqStr, getField_cons_self, asStr,
    optField,
    hnone "reason" (by decide) (by decide),
    hnone "query_type" (by decide) (by decide),
    hnone "hint" (by decide) (by decide),
    hnone "icao24" (by decide) (by decide),
    hnone "start" (by decide) (by decide),
    hnone "stop" (by decide) (by decide),
    hnone "callsign" (by decide) (by decide),
    hnone "departure_airport" (by decide) (by decide),
    hnone "arrival_airport" (by decide) (by decide),
    hnone "airport" (by decide) (by decide),
    hnone "limit" (by decide) (by decide),
    hnone "bounds" (by decide) (by decide),
    hnone "time_buffer" (by decide) (by decide)]
  rfl

/-- Witness for the amended C7: one unknown field present, every
optional field missing. -/
theorem c7_defaults_amended_witness :
    deserializeParsedParams
        [("status", Json.str "ok"), ("frobnicate", Json.num 3)] =
      .ok { status := "ok", reason := none, query_type := none,
            hint := none, icao24 := none, start := none, stop := none,
            callsign := none, departure_airport := none,
            arrival_airport := none, airport := none, limit := none,
            bounds := none, time_buffer := none } :=
  c7_defaults_amended "ok" [("frobnicate", Json.num 3)] (by decide)

end Ostk
